import Mathlib

/-!
Verification of the Mac OS X application firewall log parser
(`plaso/parsers/mac_appfirewall.py`).

The parser works on Python 2 byte strings; we embed raw lines and all
tokenized fields as `List Nat` (one entry per byte, each < 256).  Decoded
text (the `action` field after `.decode('utf-8')`) is a `List Nat` of
Unicode code points.  Timestamps are `Int` microseconds since the epoch,
as in `plaso.lib.timelib`.
-/

/-! ### Byte-level helpers (Python string semantics) -/

/-- Python `str.strip()` whitespace: space, \t, \n, \v, \f, \r. -/
def isPySpace (b : Nat) : Bool := b == 32 || (9 ≤ b && b ≤ 13)

/-- Python `str.strip()` on a byte string. -/
def pyStrip (l : List Nat) : List Nat :=
  ((l.dropWhile isPySpace).reverse.dropWhile isPySpace).reverse

/-- Python 2 `str.lower()` on a byte string: lowercases ASCII letters only. -/
def toLowerBytes (l : List Nat) : List Nat :=
  l.map (fun b => if 65 ≤ b && b ≤ 90 then b + 32 else b)

/-- The bytes of an ASCII string literal. -/
def asciiBytes (s : String) : List Nat := s.toList.map Char.toNat

/-! ### UTF-8 decoding (Python `bytes.decode('utf-8')` semantics)

`decodeSeq` decodes one UTF-8 sequence from the front of a byte list,
rejecting overlong encodings, surrogate code points and values beyond
U+10FFFF, exactly as Python's strict UTF-8 codec does. -/

/-- Is `b` a UTF-8 continuation byte (0x80–0xBF)? -/
def contByte (b : Nat) : Bool := 128 ≤ b && b ≤ 191

/-- Decode one UTF-8 encoded code point from the front of a byte list.
Returns the code point and the remaining bytes, or `none` if the bytes do
not start with a valid sequence. -/
def decodeSeq : List Nat → Option (Nat × List Nat)
  | [] => none
  | b :: rest =>
    if b ≤ 127 then some (b, rest)
    else if 194 ≤ b && b ≤ 223 then
      match rest with
      | c :: r => if contByte c then some ((b - 192) * 64 + (c - 128), r) else none
      | [] => none
    else if 224 ≤ b && b ≤ 239 then
      match rest with
      | c :: d :: r =>
        let lo := if b == 224 then 160 else 128
        let hi := if b == 237 then 159 else 191
        if (lo ≤ c && c ≤ hi) && contByte d then
          some ((b - 224) * 4096 + (c - 128) * 64 + (d - 128), r)
        else none
      | _ => none
    else if 240 ≤ b && b ≤ 244 then
      match rest with
      | c :: d :: e :: r =>
        let lo := if b == 240 then 144 else 128
        let hi := if b == 244 then 143 else 191
        if (lo ≤ c && c ≤ hi) && contByte d && contByte e then
          some ((b - 240) * 262144 + (c - 128) * 4096 + (d - 128) * 64 + (e - 128), r)
        else none
      | _ => none
    else none

/-- Strict UTF-8 decode with explicit fuel (the fuel is always at least the
length of the list, and `decodeSeq` consumes at least one byte). -/
def utf8StrictAux : Nat → List Nat → Option (List Nat)
  | _, [] => some []
  | 0, _ :: _ => none
  | fuel + 1, b :: rest =>
    match decodeSeq (b :: rest) with
    | some (cp, r) => (utf8StrictAux fuel r).map (cp :: ·)
    | none => none

/-- Python `bytes.decode('utf-8')`: all code points, or `none` on any
invalid sequence (Python raises `UnicodeDecodeError`). -/
def utf8Strict (l : List Nat) : Option (List Nat) := utf8StrictAux l.length l

/-- Decode with the `'ignore'` error handler, with fuel. On an invalid
sequence one byte is skipped and decoding resumes; since no continuation
byte can start a valid sequence this yields the same text as skipping
Python's maximal invalid subpart. -/
def utf8IgnoreAux : Nat → List Nat → List Nat
  | _, [] => []
  | 0, _ :: _ => []
  | fuel + 1, b :: rest =>
    match decodeSeq (b :: rest) with
    | some (cp, r) => cp :: utf8IgnoreAux fuel r
    | none => utf8IgnoreAux fuel rest

/-- Python `bytes.decode('utf-8', 'ignore')`: invalid sequences are dropped. -/
def utf8Ignore (l : List Nat) : List Nat := utf8IgnoreAux l.length l

/-- Modelled from the spec: permissive decoding that substitutes the
replacement marker U+FFFD for each invalid sequence ("substituting a
replacement marker for invalid sequences").  Not what the source does;
kept as the spec-side definition for comparison. -/
def utf8ReplaceAux : Nat → List Nat → List Nat
  | _, [] => []
  | 0, _ :: _ => []
  | fuel + 1, b :: rest =>
    match decodeSeq (b :: rest) with
    | some (cp, r) => cp :: utf8ReplaceAux fuel r
    | none => 65533 :: utf8ReplaceAux fuel rest

/-- Spec-side permissive decode with replacement markers. -/
def utf8Replace (l : List Nat) : List Nat := utf8ReplaceAux l.length l

/-- The decode performed on `structure.action` in `_ParseLogLine`:
try strict UTF-8, on `UnicodeDecodeError` fall back to `'ignore'`. -/
def pyDecodeAction (l : List Nat) : List Nat :=
  match utf8Strict l with
  | some cps => cps
  | none => utf8Ignore l

/-! ### Calendar arithmetic and timestamp composition

`timelib.Timestamp.FromTimeParts` is not under `src/`; it is modelled from
the spec's TimestampComposer contract (§4.4): valid calendar date/time →
microseconds since the epoch, invalid → failure (the caller turns the
raised `ValueError` into the sentinel 0).  Validity follows Python's
`datetime`: year 1–9999, month 1–12, day within the month, h<24, m<60, s<60. -/

/-- Gregorian leap year. -/
def isLeapYear (y : Nat) : Bool := (y % 4 == 0 && y % 100 != 0) || y % 400 == 0

/-- Number of days in a month of a given year. -/
def daysInMonth (y m : Nat) : Nat :=
  if m == 2 then (if isLeapYear y then 29 else 28)
  else if m == 4 || m == 6 || m == 9 || m == 11 then 30
  else 31

/-- Days from 0000-03-01 to the given civil date (valid for year ≥ 1),
via the standard era/year-of-era decomposition. -/
def daysFromCivilNat (y m d : Nat) : Nat :=
  let y2 := if m ≤ 2 then y - 1 else y
  let era := y2 / 400
  let yoe := y2 - era * 400
  let mp := (m + 9) % 12
  let doy := (153 * mp + 2) / 5 + d - 1
  let doe := yoe * 365 + yoe / 4 - yoe / 100 + doy
  era * 146097 + doe

/-- Days between 1970-01-01 and the given civil date (negative before 1970). -/
def daysFromCivil (y m d : Nat) : Int := (daysFromCivilNat y m d : Int) - 719468

/-- Modelled from the spec: `timelib.Timestamp.FromTimeParts` (TimestampComposer,
spec §4.4) — compose microseconds since the epoch from date/time parts;
`none` models the `ValueError` raised for an invalid calendar date/time. -/
def FromTimeParts (y mo d h mi s : Nat) : Option Int :=
  if (1 ≤ y && y ≤ 9999) && (1 ≤ mo && mo ≤ 12) && (1 ≤ d && d ≤ daysInMonth y mo)
      && h < 24 && mi < 60 && s < 60 then
    some ((daysFromCivil y mo d * 86400 + (h * 3600 + mi * 60 + s : Nat)) * 1000000)
  else
    none

/-- `MacAppFirewallParser._GetTimestamp`: compose a timestamp, returning the
sentinel 0 when composition raises (`except ValueError`). -/
def GetTimestamp (day month year : Nat) (time : Nat × Nat × Nat) : Int :=
  match FromTimeParts year month day time.1 time.2.1 time.2.2 with
  | some t => t
  | none => 0

/-- Modelled from the spec: `timelib.MONTH_DICT` (not under `src/`) — maps the
lowercase three-letter month abbreviations to month numbers 1–12; any other
key yields `none` (Python `dict.get` returns `None`). -/
def MONTH_DICT (s : List Nat) : Option Nat :=
  if s = asciiBytes "jan" then some 1
  else if s = asciiBytes "feb" then some 2
  else if s = asciiBytes "mar" then some 3
  else if s = asciiBytes "apr" then some 4
  else if s = asciiBytes "may" then some 5
  else if s = asciiBytes "jun" then some 6
  else if s = asciiBytes "jul" then some 7
  else if s = asciiBytes "aug" then some 8
  else if s = asciiBytes "sep" then some 9
  else if s = asciiBytes "oct" then some 10
  else if s = asciiBytes "nov" then some 11
  else if s = asciiBytes "dec" then some 12
  else none

/-! ### Data model

A tokenized line.  `pyparsing.ParseResults` is a bag that returns the empty
string for absent names, so a single record with `[]` defaults faithfully
carries both line shapes; the repeated shape fills only `month`, `day`,
`time` and `process_name`. -/

/-- Fields extracted from one log line (all raw bytes except the numeric
`day` and `time`, which the grammar converts to integers). -/
structure LogLineStructure where
  month : List Nat
  day : Nat
  time : Nat × Nat × Nat
  computer_name : List Nat := []
  agent : List Nat := []
  status : List Nat := []
  process_name : List Nat := []
  action : List Nat := []
deriving DecidableEq, Repr

/-- The dispatch key from `LINE_STRUCTURES`: `'logline'` or `'repeated'`. -/
inductive LineKey
  | logline
  | repeated
deriving DecidableEq, Repr

/-- The parser's mutable per-file state: `_year_use` (0 = unresolved),
`_last_month` (`none` models Python `None`) and `previous_structure`. -/
structure ParserState where
  year_use : Nat
  last_month : Option Nat
  previous_structure : Option LogLineStructure
deriving DecidableEq, Repr

/-- The state set up by `MacAppFirewallParser.__init__`. -/
def initState : ParserState :=
  { year_use := 0, last_month := none, previous_structure := none }

/-- `MacAppFirewallLogEvent`: the produced event object.  `action` holds
decoded code points; the remaining text fields hold the raw bytes the
Python 2 code stores unchanged. -/
structure MacAppFirewallLogEvent where
  timestamp : Int
  action : List Nat
  agent : List Nat
  computer_name : List Nat
  process_name : List Nat
  status : List Nat
deriving DecidableEq, Repr

/-- What one call to `_ParseLogLine` (or the line loop) does besides
updating state: produce an event, silently skip the line (the
invalid-timestamp `return`), raise an uncaught Python exception, or match
neither grammar shape. -/
inductive Outcome
  | event : MacAppFirewallLogEvent → Outcome
  | skipped : Outcome
  | raised : Outcome
  | nomatch : Outcome
deriving DecidableEq, Repr

/-- State and outcome of processing one line. -/
structure StepResult where
  state : ParserState
  outcome : Outcome
deriving DecidableEq, Repr

/-- The event produced by a step, if any. -/
def Outcome.eventOf : Outcome → Option MacAppFirewallLogEvent
  | .event e => some e
  | _ => none

/-- Did the step produce an event? -/
def Outcome.isEvent : Outcome → Bool
  | .event _ => true
  | _ => false

/-- The `action` field of the produced event, if any. -/
def Outcome.actionOf : Outcome → Option (List Nat)
  | .event e => some e.action
  | _ => none

/-- The `process_name` field of the produced event, if any. -/
def Outcome.processNameOf : Outcome → Option (List Nat)
  | .event e => some e.process_name
  | _ => none

/-! ### External collaborators (spec §6)

`parser_mediator.year`, the file-entry stat times, the timezone conversion
and the system clock are external inputs; they are passed in as an
environment. -/

/-- External inputs consumed by year resolution: the mediator's year hint,
the stat object's `crtime` and `ctime` (0 when absent, as `getattr(stat,
..., 0)` yields), the timezone-adjusted `datetime.fromtimestamp(..).year`
(`none` models the `ValueError` branch), and `timelib.GetCurrentYear()`. -/
structure Env where
  year : Nat
  crtime : Nat
  ctime : Nat
  tzYearOf : Nat → Option Nat
  currentYear : Nat

/-- `MacAppFirewallParser._GetYear`: year from the file's creation time,
falling back to the change time, then to the current year when no time is
available or the timezone conversion raises. -/
def GetYear (env : Env) : Nat :=
  let time := if env.crtime ≠ 0 then env.crtime else env.ctime
  if time = 0 then env.currentYear
  else
    match env.tzYearOf time with
    | none => env.currentYear
    | some y => y

/-- The year-resolution prefix of `_ParseLogLine` (lines 139–149): take the
mediator's year when `_year_use` is unset, then `_GetYear`, then
`timelib.GetCurrentYear()`. -/
def resolveYearUse (env : Env) (year_use : Nat) : Nat :=
  let y1 := if year_use = 0 then env.year else year_use
  if y1 = 0 then
    let y2 := GetYear env
    if y2 = 0 then env.currentYear else y2
  else y1

/-- The month-rollover step of `_ParseLogLine`: after `_last_month` is
initialized to the current month when unset, the year is incremented when
the current month is numerically smaller. -/
def rolledYear (year : Nat) (last_month : Option Nat) (m : Nat) : Nat :=
  if m < last_month.getD m then year + 1 else year

/-- `MacAppFirewallParser._ParseLogLine`, one step of the engine.

When `MONTH_DICT` has no entry for the month token, Python 2's `month` is
`None`: `None < int` is true (so an already-set `_last_month` still causes
a year increment) and `FromTimeParts` then raises an uncaught `TypeError`,
modelled by the `raised` outcome.  When the key is `'repeated'` and no
previous structure is cached, `structure` becomes `None` and
`structure.action` raises an uncaught `AttributeError`, again `raised`;
`_last_month` has already been updated at that point. -/
def ParseLogLine (env : Env) (st : ParserState) (s : LogLineStructure)
    (key : LineKey) : StepResult :=
  let year1 := resolveYearUse env st.year_use
  match MONTH_DICT (toLowerBytes s.month) with
  | none =>
    let year2 := match st.last_month with
      | none => year1
      | some _ => year1 + 1
    { state := { year_use := year2, last_month := st.last_month,
                 previous_structure := st.previous_structure },
      outcome := .raised }
  | some m =>
    let lm0 := st.last_month.getD m
    let year2 := rolledYear year1 st.last_month m
    let ts := GetTimestamp s.day m year2 s.time
    if ts = 0 then
      { state := { year_use := year2, last_month := some lm0,
                   previous_structure := st.previous_structure },
        outcome := .skipped }
    else
      match key with
      | .logline =>
        { state := { year_use := year2, last_month := some m,
                     previous_structure := some s },
          outcome := .event
            { timestamp := ts,
              action := pyDecodeAction s.action,
              agent := s.agent,
              computer_name := s.computer_name,
              process_name := pyStrip s.process_name,
              status := s.status } }
      | .repeated =>
        match st.previous_structure with
        | none =>
          { state := { year_use := year2, last_month := some m,
                       previous_structure := none },
            outcome := .raised }
        | some prev =>
          { state := { year_use := year2, last_month := some m,
                       previous_structure := some prev },
            outcome := .event
              { timestamp := ts,
                action := pyDecodeAction prev.action,
                agent := prev.agent,
                computer_name := prev.computer_name,
                process_name := pyStrip prev.process_name,
                status := prev.status } }

/-! ### Line tokenization (the pyparsing grammar)

The grammar combinators follow pyparsing's documented behaviour (the
library is external to the repository): tokens skip leading whitespace,
except `CharsNotIn` and the captured text of `SkipTo`'s anchor search,
which is why `process_name` keeps its leading blank.  The `MONTH`,
`ONE_OR_TWO_DIGITS` and `TIME` helpers live in
`plaso.parsers.text_parser.PyparsingConstants`, which is not under `src/`;
they are modelled from the spec's grammar description (§4.1): three-letter
month token, one/two-digit day, `HH:MM:SS` time. -/

/-- pyparsing default whitespace characters (space, newline, tab). -/
def isWsByte (b : Nat) : Bool := b == 32 || b == 10 || b == 9

/-- Skip leading whitespace, as pyparsing tokens do before matching. -/
def skipWs (l : List Nat) : List Nat := l.dropWhile isWsByte

/-- An ASCII decimal digit byte. -/
def isDigitByte (b : Nat) : Bool := 48 ≤ b && b ≤ 57

/-- An ASCII letter byte. -/
def isAlphaByte (b : Nat) : Bool := (65 ≤ b && b ≤ 90) || (97 ≤ b && b ≤ 122)

/-- A pyparsing `printables` byte (ASCII 33–126). -/
def isPrintableByte (b : Nat) : Bool := 33 ≤ b && b ≤ 126

/-- `pyparsing.Word(p)`: after skipping whitespace, the maximal nonempty
run of bytes satisfying `p`. -/
def parseWord (p : Nat → Bool) (l : List Nat) : Option (List Nat × List Nat) :=
  let l2 := skipWs l
  let tok := l2.takeWhile p
  if tok.isEmpty then none else some (tok, l2.dropWhile p)

/-- `pyparsing.CharsNotIn(bad)`: the maximal nonempty run of bytes outside
`bad`, with no leading-whitespace skipping. -/
def parseCharsNotIn (bad : List Nat) (l : List Nat) : Option (List Nat × List Nat) :=
  let tok := l.takeWhile (fun b => !(bad.contains b))
  if tok.isEmpty then none else some (tok, l.dropWhile (fun b => !(bad.contains b)))

/-- `pyparsing.Literal(lit)`: after skipping whitespace, the exact bytes. -/
def parseLiteral (lit : List Nat) (l : List Nat) : Option (List Nat) :=
  let l2 := skipWs l
  if lit.isPrefixOf l2 then some (l2.drop lit.length) else none

/-- Modelled from the spec: `PyparsingConstants.MONTH` — a "three-letter
month token": after whitespace, exactly three letter bytes. -/
def parseMonth (l : List Nat) : Option (List Nat × List Nat) :=
  match skipWs l with
  | a :: b :: c :: rest =>
    if isAlphaByte a && isAlphaByte b && isAlphaByte c then some ([a, b, c], rest)
    else none
  | _ => none

/-- Modelled from the spec: `PyparsingConstants.ONE_OR_TWO_DIGITS` — a
one/two-digit number, greedy, converted to an integer. -/
def parseDay (l : List Nat) : Option (Nat × List Nat) :=
  match skipWs l with
  | a :: b :: rest =>
    if isDigitByte a then
      if isDigitByte b then some ((a - 48) * 10 + (b - 48), rest)
      else some (a - 48, b :: rest)
    else none
  | [a] => if isDigitByte a then some (a - 48, []) else none
  | [] => none

/-- Exactly two digit bytes, converted to an integer. -/
def parseTwoDigits (l : List Nat) : Option (Nat × List Nat) :=
  match l with
  | a :: b :: rest =>
    if isDigitByte a && isDigitByte b then some ((a - 48) * 10 + (b - 48), rest)
    else none
  | _ => none

/-- Modelled from the spec: `PyparsingConstants.TIME` — an `HH:MM:SS`
time, yielding the (hour, minute, second) integers. -/
def parseTime (l : List Nat) : Option ((Nat × Nat × Nat) × List Nat) := do
  let (h, r1) ← parseTwoDigits (skipWs l)
  match r1 with
  | 58 :: r2 =>
    let (mi, r3) ← parseTwoDigits r2
    match r3 with
    | 58 :: r4 =>
      let (s, r5) ← parseTwoDigits r4
      pure ((h, mi, s), r5)
    | _ => none
  | _ => none

/-- `FIREWALL_LINE`: month, day, time, computer name, agent, `<`, status
up to `>`, `>:`, process name up to `:`, `:`, action to end of line. -/
def parseFirewallLine (l : List Nat) : Option LogLineStructure := do
  let (month, r1) ← parseMonth l
  let (day, r2) ← parseDay r1
  let (time, r3) ← parseTime r2
  let (cn, r4) ← parseWord isPrintableByte r3
  let (ag, r5) ← parseWord isPrintableByte r4
  let r6 ← parseLiteral [60] r5
  let (st, r7) ← parseCharsNotIn [62] r6
  let r8 ← parseLiteral [62, 58] r7
  let (pn, r9) ← parseCharsNotIn [58] r8
  let r10 ← parseLiteral [58] r9
  pure { month := month, day := day, time := time, computer_name := cn,
         agent := ag, status := st, process_name := pn, action := skipWs r10 }

/-- `REPEATED_LINE`: month, day, time, `---`, process name up to the next
`-` (pyparsing `CharsNotIn('---')` excludes the single character `-`),
`---`. -/
def parseRepeatedLine (l : List Nat) : Option LogLineStructure := do
  let (month, r1) ← parseMonth l
  let (day, r2) ← parseDay r1
  let (time, r3) ← parseTime r2
  let r4 ← parseLiteral [45, 45, 45] r3
  let (pn, r5) ← parseCharsNotIn [45] r4
  let _ ← parseLiteral [45, 45, 45] r5
  pure { month := month, day := day, time := time, process_name := pn }

/-- `MacAppFirewallParser.VerifyStructure`: the file is accepted exactly
when the first line tokenizes as a firewall line whose action is the known
initialization string and whose status is `Error`. -/
def VerifyStructure (line : List Nat) : Bool :=
  match parseFirewallLine line with
  | none => false
  | some s =>
    if s.action ≠ asciiBytes "creating /var/log/appfirewall.log"
        ∨ s.status ≠ asciiBytes "Error" then false
    else true

/-- Modelled from the spec: the host line loop
(`PyparsingSingleLineTextParser`, not under `src/`) tries the
`LINE_STRUCTURES` in order — shape A (`'logline'`) first, then shape B
(`'repeated'`) — and hands the match to `ParseRecord`/`_ParseLogLine`;
a line matching neither shape is skipped. -/
def ProcessLine (env : Env) (st : ParserState) (line : List Nat) : StepResult :=
  match parseFirewallLine line with
  | some s => ParseLogLine env st s .logline
  | none =>
    match parseRepeatedLine line with
    | some s => ParseLogLine env st s .repeated
    | none => { state := st, outcome := .nomatch }

/-! ### Concrete fixtures used by counterexamples and witnesses -/

/-- A mediator environment with the year hint 2013. -/
def exEnv : Env :=
  { year := 2013, crtime := 0, ctime := 0, tzYearOf := fun _ => none,
    currentYear := 2013 }

/-- A previously accepted full (shape-A) record. -/
def exPrevStruct : LogLineStructure :=
  { month := asciiBytes "Oct", day := 1, time := (0, 0, 0),
    computer_name := asciiBytes "Host-1.local",
    agent := asciiBytes "socketfilterfw[112]",
    status := asciiBytes "Info",
    process_name := asciiBytes " Dropbox",
    action := asciiBytes "Allow (in:0 out:2)" }

/-- Parser state after accepting `exPrevStruct` (October, year 2013). -/
def exStBefore : ParserState :=
  { year_use := 2013, last_month := some 10,
    previous_structure := some exPrevStruct }

/-- A shape-A line for November 31, a day that does not exist. -/
def exBadDayStruct : LogLineStructure :=
  { exPrevStruct with month := asciiBytes "Nov", day := 31 }

/-- The raw bytes of a shape-B (repeated-marker) line. -/
def exRepeatedLineBytes : List Nat :=
  asciiBytes "Nov 29 22:18:29 --- last message repeated 1 time ---"

/-- A shape-A record whose action bytes are not valid UTF-8 (0xFF). -/
def exBadActionStruct : LogLineStructure :=
  { exPrevStruct with action := [65, 255, 66] }

/-- The tokenized form of `exRepeatedLineBytes` (shape B). -/
def exRepStruct : LogLineStructure :=
  { month := asciiBytes "Nov", day := 29, time := (22, 18, 29),
    process_name := asciiBytes " last message repeated 1 time " }

/-- Parser state with December as the last seen month. -/
def exDecState : ParserState :=
  { year_use := 2013, last_month := some 12, previous_structure := some exPrevStruct }

/-- A shape-A line for February 31, a day that does not exist. -/
def exFebBadStruct : LogLineStructure :=
  { exPrevStruct with month := asciiBytes "Feb", day := 31 }

/-- A calendar-valid shape-A line in January. -/
def exJanStruct : LogLineStructure :=
  { exPrevStruct with month := asciiBytes "Jan", day := 1 }

/-- A first line that `VerifyStructure` accepts. -/
def exDetectLine : List Nat :=
  asciiBytes
    "Oct 1 00:00:00 Host-1 socketfilterfw[1] <Error>: Logging: creating /var/log/appfirewall.log"

/-- The tokenized form of `exDetectLine`. -/
def exDetectStruct : LogLineStructure :=
  { month := asciiBytes "Oct", day := 1, time := (0, 0, 0),
    computer_name := asciiBytes "Host-1",
    agent := asciiBytes "socketfilterfw[1]",
    status := asciiBytes "Error",
    process_name := asciiBytes " Logging",
    action := asciiBytes "creating /var/log/appfirewall.log" }

/-- An environment with a nonzero year hint and distinct metadata values. -/
def exEnvHint : Env :=
  { year := 2013, crtime := 5, ctime := 0, tzYearOf := fun _ => some 2012,
    currentYear := 2010 }

/-- A second, different environment (no hint, creation time available). -/
def exEnvB : Env :=
  { year := 0, crtime := 7, ctime := 0, tzYearOf := fun _ => some 1999,
    currentYear := 2020 }

/-- Parser state whose year in use is 1970 with January already seen. -/
def exEpochState : ParserState :=
  { year_use := 1970, last_month := some 1, previous_structure := some exPrevStruct }

/-- A calendar-valid shape-A line whose components compose to the epoch
instant (1970-01-01 00:00:00). -/
def exEpochStruct : LogLineStructure :=
  { month := asciiBytes "Jan", day := 1, time := (0, 0, 0),
    computer_name := asciiBytes "Host-1.local",
    agent := asciiBytes "socketfilterfw[112]",
    status := asciiBytes "Info",
    process_name := asciiBytes " Dropbox",
    action := asciiBytes "Allow (in:0 out:2)" }

/-! ### Helper lemmas -/

/-- Year resolution is a no-op once `_year_use` is nonzero. -/
theorem resolveYearUse_of_ne_zero (env : Env) {yu : Nat} (h : yu ≠ 0) :
    resolveYearUse env yu = yu := by
  unfold resolveYearUse; simp [h]

/-- One step changes `_year_use` from its resolved value by at most the
single rollover increment. -/
theorem parseLogLine_year_use (env : Env) (st : ParserState) (s : LogLineStructure)
    (key : LineKey) :
    (ParseLogLine env st s key).state.year_use = resolveYearUse env st.year_use ∨
    (ParseLogLine env st s key).state.year_use = resolveYearUse env st.year_use + 1 := by
  unfold ParseLogLine rolledYear
  cases MONTH_DICT (toLowerBytes s.month) with
  | none => cases st.last_month <;> simp
  | some m =>
    dsimp only
    by_cases hlt : m < st.last_month.getD m
    · simp only [if_pos hlt]
      split
      · simp
      · cases key with
        | logline => simp
        | repeated => cases st.previous_structure <;> simp
    · simp only [if_neg hlt]
      split
      · simp
      · cases key with
        | logline => simp
        | repeated => cases st.previous_structure <;> simp

/-! ### The claims -/

/-- Claim C1, counterexample.  The claim says that when timestamp
composition fails, `last_month` and `previous_record` are still updated
for that line as on success.  On the concrete November 31 line (month 11)
the step emits no event, but `_last_month` stays at October (10, not 11)
and `previous_structure` stays the old record: the `return` on the invalid
timestamp happens before both updates. -/
theorem claim_C1_counterexample :
    (ParseLogLine exEnv exStBefore exBadDayStruct .logline).outcome = .skipped ∧
    MONTH_DICT (toLowerBytes exBadDayStruct.month) = some 11 ∧
    (ParseLogLine exEnv exStBefore exBadDayStruct .logline).state.last_month = some 10 ∧
    some 10 ≠ some 11 ∧
    (ParseLogLine exEnv exStBefore exBadDayStruct .logline).state.previous_structure
      = some exPrevStruct ∧
    some exPrevStruct ≠ some exBadDayStruct := by decide

/-- Claim C1, amended.  When the month/day/time components do not compose
to a valid nonzero timestamp, no event is emitted and the line is
discarded; `previous_structure` is left unchanged and `_last_month` is
only initialized to the line's month when previously unset (it is not
updated when already set). -/
theorem claim_C1_amended (env : Env) (st : ParserState) (s : LogLineStructure)
    (key : LineKey) (m : Nat)
    (hm : MONTH_DICT (toLowerBytes s.month) = some m)
    (hts : GetTimestamp s.day m
      (rolledYear (resolveYearUse env st.year_use) st.last_month m) s.time = 0) :
    (ParseLogLine env st s key).outcome = .skipped ∧
    (ParseLogLine env st s key).state.previous_structure = st.previous_structure ∧
    (ParseLogLine env st s key).state.last_month = some (st.last_month.getD m) := by
  simp [ParseLogLine, hm, hts]

/-- Witness for `claim_C1_amended` at the November 31 line. -/
theorem claim_C1_witness :
    MONTH_DICT (toLowerBytes exBadDayStruct.month) = some 11 ∧
    GetTimestamp exBadDayStruct.day 11
      (rolledYear (resolveYearUse exEnv exStBefore.year_use) exStBefore.last_month 11)
      exBadDayStruct.time = 0 ∧
    ((ParseLogLine exEnv exStBefore exBadDayStruct .logline).outcome = .skipped ∧
     (ParseLogLine exEnv exStBefore exBadDayStruct .logline).state.previous_structure
       = exStBefore.previous_structure ∧
     (ParseLogLine exEnv exStBefore exBadDayStruct .logline).state.last_month
       = some (exStBefore.last_month.getD 11)) :=
  ⟨by decide, by decide,
   claim_C1_amended exEnv exStBefore exBadDayStruct .logline 11 (by decide) (by decide)⟩

/-- Claim C2 (code bug), evaluation at the failing input.  The claim (and
the spec) say a shape-B line with no cached previous record is discarded
with no exception so processing continues; in the code
`structure = self.previous_structure` sets `structure` to `None` and
`structure.action` then raises an uncaught `AttributeError`.  Processing
the repeated line from a fresh state (no previous record) reaches the
`raised` outcome. -/
theorem claim_C2_eval :
    initState.previous_structure = none ∧
    (ProcessLine exEnv initState exRepeatedLineBytes).outcome = .raised := by decide

/-- Claim C3, counterexample.  The claim says invalid byte sequences in
`action` are decoded with each invalid sequence substituted by a
replacement marker.  On a line whose action bytes are `A 0xFF B` the event
is emitted with action `AB` — the invalid byte is dropped
(`decode('utf-8', 'ignore')`), not replaced by U+FFFD as the claim's
replacement decoding would produce. -/
theorem claim_C3_counterexample :
    Outcome.isEvent (ParseLogLine exEnv exStBefore exBadActionStruct .logline).outcome
      = true ∧
    Outcome.actionOf (ParseLogLine exEnv exStBefore exBadActionStruct .logline).outcome
      = some [65, 66] ∧
    utf8Replace exBadActionStruct.action = [65, 65533, 66] ∧
    ([65, 66] : List Nat) ≠ [65, 65533, 66] := by decide

/-- Claim C3, amended.  An accepted shape-A line whose action bytes are
not valid UTF-8 still emits exactly one event, whose action text is the
permissive decoding in which invalid sequences are dropped (decoded with
errors ignored), not replaced by a marker. -/
theorem claim_C3_amended (env : Env) (st : ParserState) (s : LogLineStructure) (m : Nat)
    (hm : MONTH_DICT (toLowerBytes s.month) = some m)
    (hts : GetTimestamp s.day m
      (rolledYear (resolveYearUse env st.year_use) st.last_month m) s.time ≠ 0)
    (hbad : utf8Strict s.action = none) :
    Outcome.isEvent (ParseLogLine env st s .logline).outcome = true ∧
    Outcome.actionOf (ParseLogLine env st s .logline).outcome
      = some (utf8Ignore s.action) := by
  simp [ParseLogLine, hm, hts, pyDecodeAction, hbad, Outcome.isEvent, Outcome.actionOf]

/-- Witness for `claim_C3_amended` at the `A 0xFF B` action. -/
theorem claim_C3_witness :
    MONTH_DICT (toLowerBytes exBadActionStruct.month) = some 10 ∧
    GetTimestamp exBadActionStruct.day 10
      (rolledYear (resolveYearUse exEnv exStBefore.year_use) exStBefore.last_month 10)
      exBadActionStruct.time ≠ 0 ∧
    utf8Strict exBadActionStruct.action = none ∧
    (Outcome.isEvent (ParseLogLine exEnv exStBefore exBadActionStruct .logline).outcome
       = true ∧
     Outcome.actionOf (ParseLogLine exEnv exStBefore exBadActionStruct .logline).outcome
       = some (utf8Ignore exBadActionStruct.action)) :=
  ⟨by decide, by decide, by decide,
   claim_C3_amended exEnv exStBefore exBadActionStruct 10 (by decide) (by decide)
     (by decide)⟩

/-- Claim C4.  A shape-B (repeated) line processed with a cached previous
full record and a valid (nonzero) timestamp emits exactly one event whose
`computer_name`, `agent`, `status`, `action` (and `process_name`) are
those of the cached shape-A record, and whose timestamp is the one
composed from the shape-B line's own month/day/time. -/
theorem claim_C4 (env : Env) (st : ParserState) (s : LogLineStructure)
    (prev : LogLineStructure) (m : Nat)
    (hprev : st.previous_structure = some prev)
    (hm : MONTH_DICT (toLowerBytes s.month) = some m)
    (hts : GetTimestamp s.day m
      (rolledYear (resolveYearUse env st.year_use) st.last_month m) s.time ≠ 0) :
    (ParseLogLine env st s .repeated).outcome = .event
      { timestamp := GetTimestamp s.day m
          (rolledYear (resolveYearUse env st.year_use) st.last_month m) s.time,
        action := pyDecodeAction prev.action,
        agent := prev.agent,
        computer_name := prev.computer_name,
        process_name := pyStrip prev.process_name,
        status := prev.status } := by
  simp [ParseLogLine, hm, hts, hprev]

/-- Witness for `claim_C4`: `Nov 29 22:18:29 --- last message repeated 1
time ---` after the accepted October record. -/
theorem claim_C4_witness :
    exStBefore.previous_structure = some exPrevStruct ∧
    MONTH_DICT (toLowerBytes exRepStruct.month) = some 11 ∧
    GetTimestamp exRepStruct.day 11
      (rolledYear (resolveYearUse exEnv exStBefore.year_use) exStBefore.last_month 11)
      exRepStruct.time ≠ 0 ∧
    (ParseLogLine exEnv exStBefore exRepStruct .repeated).outcome = .event
      { timestamp := GetTimestamp exRepStruct.day 11
          (rolledYear (resolveYearUse exEnv exStBefore.year_use) exStBefore.last_month 11)
          exRepStruct.time,
        action := pyDecodeAction exPrevStruct.action,
        agent := exPrevStruct.agent,
        computer_name := exPrevStruct.computer_name,
        process_name := pyStrip exPrevStruct.process_name,
        status := exPrevStruct.status } :=
  ⟨by decide, by decide, by decide,
   claim_C4 exEnv exStBefore exRepStruct exPrevStruct 11 (by decide) (by decide)
     (by decide)⟩

/-- Claim C5, counterexample.  The claim says that on every later record
`_last_month` is then updated to the current month.  On a February 31 line
(month 2) after December (12), the year is incremented (2013 → 2014, the
rollover) but the invalid timestamp causes an early return before the
`self._last_month = month` assignment: `_last_month` stays 12, not 2. -/
theorem claim_C5_counterexample :
    MONTH_DICT (toLowerBytes exFebBadStruct.month) = some 2 ∧
    (ParseLogLine exEnv exDecState exFebBadStruct .logline).state.year_use = 2014 ∧
    (ParseLogLine exEnv exDecState exFebBadStruct .logline).state.last_month = some 12 ∧
    some 12 ≠ some 2 := by decide

/-- Claim C5, amended.  On the first processed record `_last_month` is
initialized to that record's month with no rollover check; on every
record, `_year_use` is incremented by exactly one iff the record's month
is numerically less than the last seen month (the increment happens even
when the timestamp is invalid), and `_last_month` is then updated to the
current month exactly when timestamp composition succeeds — on failure it
keeps its previous value (the first record's initialization aside).  In
particular December followed by January increments the year exactly once,
at the transition. -/
theorem claim_C5_amended (env : Env) (st : ParserState) (s : LogLineStructure)
    (key : LineKey) (m : Nat)
    (hm : MONTH_DICT (toLowerBytes s.month) = some m) :
    (ParseLogLine env st s key).state.year_use =
      (if m < st.last_month.getD m then resolveYearUse env st.year_use + 1
       else resolveYearUse env st.year_use) ∧
    (ParseLogLine env st s key).state.last_month =
      (if GetTimestamp s.day m
            (rolledYear (resolveYearUse env st.year_use) st.last_month m) s.time = 0
       then some (st.last_month.getD m) else some m) := by
  unfold ParseLogLine rolledYear
  rw [hm]
  by_cases hts : GetTimestamp s.day m
      (if m < st.last_month.getD m then resolveYearUse env st.year_use + 1
       else resolveYearUse env st.year_use) s.time = 0
  · simp [hts]
  · cases key with
    | logline => simp [hts]
    | repeated => cases st.previous_structure <;> simp [hts]

/-- Witness for `claim_C5_amended` at the December → January transition:
the year in use moves from 2013 to 2014 exactly at this step. -/
theorem claim_C5_witness :
    MONTH_DICT (toLowerBytes exJanStruct.month) = some 1 ∧
    ((ParseLogLine exEnv exDecState exJanStruct .logline).state.year_use =
      (if 1 < exDecState.last_month.getD 1 then resolveYearUse exEnv exDecState.year_use + 1
       else resolveYearUse exEnv exDecState.year_use) ∧
     (ParseLogLine exEnv exDecState exJanStruct .logline).state.last_month =
      (if GetTimestamp exJanStruct.day 1
            (rolledYear (resolveYearUse exEnv exDecState.year_use) exDecState.last_month 1)
            exJanStruct.time = 0
       then some (exDecState.last_month.getD 1) else some 1)) :=
  ⟨by decide, claim_C5_amended exEnv exDecState exJanStruct .logline 1 (by decide)⟩

/-- Claim C6.  `VerifyStructure` returns true exactly when the line
tokenizes under the shape-A grammar with action
`creating /var/log/appfirewall.log` and status `Error`; any other outcome
(no match, different action, different status) gives false, and the
function is total (no exception escapes). -/
theorem claim_C6 (line : List Nat) :
    VerifyStructure line = true ↔
      ∃ s, parseFirewallLine line = some s ∧
        s.action = asciiBytes "creating /var/log/appfirewall.log" ∧
        s.status = asciiBytes "Error" := by
  unfold VerifyStructure
  cases h : parseFirewallLine line with
  | none => simp
  | some s =>
    by_cases ha : s.action = asciiBytes "creating /var/log/appfirewall.log" <;>
      by_cases hs : s.status = asciiBytes "Error" <;>
      simp [ha, hs]

/-- Witness for `claim_C6` at an accepted first line. -/
theorem claim_C6_witness : VerifyStructure exDetectLine = true :=
  (claim_C6 exDetectLine).mpr ⟨exDetectStruct, by decide, by decide, by decide⟩

/-- Claim C7.  When `_year_use` is unresolved (0), resolution takes the
first success of: the mediator's year hint if nonzero; the file's creation
time falling back to the change time, converted via the timezone to a
calendar year; the system clock's current year — and always produces a
positive year (given a sane clock and conversion). -/
theorem claim_C7 (env : Env)
    (hcur : 0 < env.currentYear)
    (htz : ∀ t y, env.tzYearOf t = some y → 0 < y) :
    0 < resolveYearUse env 0 ∧
    (env.year ≠ 0 → resolveYearUse env 0 = env.year) ∧
    (env.year = 0 → env.crtime ≠ 0 → ∀ y, env.tzYearOf env.crtime = some y →
      resolveYearUse env 0 = y) ∧
    (env.year = 0 → env.crtime ≠ 0 → env.tzYearOf env.crtime = none →
      resolveYearUse env 0 = env.currentYear) ∧
    (env.year = 0 → env.crtime = 0 → env.ctime ≠ 0 → ∀ y, env.tzYearOf env.ctime = some y →
      resolveYearUse env 0 = y) ∧
    (env.year = 0 → env.crtime = 0 → env.ctime = 0 →
      resolveYearUse env 0 = env.currentYear) := by
  have hres : resolveYearUse env 0 =
      if env.year = 0 then (if GetYear env = 0 then env.currentYear else GetYear env)
      else env.year := by
    unfold resolveYearUse; simp
  refine ⟨?_, ?_, ?_, ?_, ?_, ?_⟩
  · rw [hres]
    by_cases hy : env.year = 0
    · rw [if_pos hy]
      by_cases hg : GetYear env = 0
      · rw [if_pos hg]; exact hcur
      · rw [if_neg hg]; exact Nat.pos_of_ne_zero hg
    · rw [if_neg hy]; exact Nat.pos_of_ne_zero hy
  · intro hy; rw [hres, if_neg hy]
  · intro hy hcr y hty
    have hg : GetYear env = y := by unfold GetYear; simp [hcr, hty]
    have hypos := htz env.crtime y hty
    rw [hres, if_pos hy, hg, if_neg (Nat.pos_iff_ne_zero.mp hypos)]
  · intro hy hcr htn
    have hg : GetYear env = env.currentYear := by unfold GetYear; simp [hcr, htn]
    rw [hres, if_pos hy, hg]
    split <;> rfl
  · intro hy hcr hct y hty
    have hg : GetYear env = y := by unfold GetYear; simp [hcr, hct, hty]
    have hypos := htz env.ctime y hty
    rw [hres, if_pos hy, hg, if_neg (Nat.pos_iff_ne_zero.mp hypos)]
  · intro hy hcr hct
    have hg : GetYear env = env.currentYear := by unfold GetYear; simp [hcr, hct]
    rw [hres, if_pos hy, hg]
    split <;> rfl

/-- Witness for `claim_C7` at a concrete environment with a nonzero hint. -/
theorem claim_C7_witness :
    0 < exEnvHint.currentYear ∧
    (0 < resolveYearUse exEnvHint 0 ∧
     (exEnvHint.year ≠ 0 → resolveYearUse exEnvHint 0 = exEnvHint.year) ∧
     (exEnvHint.year = 0 → exEnvHint.crtime ≠ 0 → ∀ y,
        exEnvHint.tzYearOf exEnvHint.crtime = some y → resolveYearUse exEnvHint 0 = y) ∧
     (exEnvHint.year = 0 → exEnvHint.crtime ≠ 0 →
        exEnvHint.tzYearOf exEnvHint.crtime = none →
        resolveYearUse exEnvHint 0 = exEnvHint.currentYear) ∧
     (exEnvHint.year = 0 → exEnvHint.crtime = 0 → exEnvHint.ctime ≠ 0 → ∀ y,
        exEnvHint.tzYearOf exEnvHint.ctime = some y → resolveYearUse exEnvHint 0 = y) ∧
     (exEnvHint.year = 0 → exEnvHint.crtime = 0 → exEnvHint.ctime = 0 →
        resolveYearUse exEnvHint 0 = exEnvHint.currentYear)) :=
  ⟨by decide,
   claim_C7 exEnvHint (by decide)
     (fun t y h => (Option.some.inj h) ▸ (by decide : (0:Nat) < 2012))⟩

/-- Claim C8.  Once `_year_use` is nonzero, a processing step neither
consults the resolution inputs (the result is identical for any two
environments) nor changes the year other than by the single rollover
increment. -/
theorem claim_C8 (env1 env2 : Env) (st : ParserState) (s : LogLineStructure)
    (key : LineKey) (h : st.year_use ≠ 0) :
    ParseLogLine env1 st s key = ParseLogLine env2 st s key ∧
    ((ParseLogLine env1 st s key).state.year_use = st.year_use ∨
     (ParseLogLine env1 st s key).state.year_use = st.year_use + 1) := by
  have h1 := resolveYearUse_of_ne_zero env1 h
  have h2 := resolveYearUse_of_ne_zero env2 h
  constructor
  · unfold ParseLogLine
    rw [h1, h2]
  · have h3 := parseLogLine_year_use env1 st s key
    rw [h1] at h3
    exact h3

/-- Witness for `claim_C8` with two different environments. -/
theorem claim_C8_witness :
    exStBefore.year_use ≠ 0 ∧
    (ParseLogLine exEnvHint exStBefore exRepStruct .repeated =
       ParseLogLine exEnvB exStBefore exRepStruct .repeated ∧
     ((ParseLogLine exEnvHint exStBefore exRepStruct .repeated).state.year_use
        = exStBefore.year_use ∨
      (ParseLogLine exEnvHint exStBefore exRepStruct .repeated).state.year_use
        = exStBefore.year_use + 1)) :=
  ⟨by decide, claim_C8 exEnvHint exEnvB exStBefore exRepStruct .repeated (by decide)⟩

/-- Claim C9.  The event emitted for an accepted shape-B line carries the
trimmed `process_name` of the cached previous full record, and the shape-B
line's own `process_name` field is discarded: the step's result does not
depend on it at all. -/
theorem claim_C9 (env : Env) (st : ParserState) (s : LogLineStructure)
    (prev : LogLineStructure) (m : Nat)
    (hprev : st.previous_structure = some prev)
    (hm : MONTH_DICT (toLowerBytes s.month) = some m)
    (hts : GetTimestamp s.day m
      (rolledYear (resolveYearUse env st.year_use) st.last_month m) s.time ≠ 0) :
    Outcome.processNameOf (ParseLogLine env st s .repeated).outcome
      = some (pyStrip prev.process_name) ∧
    ∀ pn2, ParseLogLine env st { s with process_name := pn2 } .repeated =
           ParseLogLine env st s .repeated := by
  constructor
  · simp [ParseLogLine, hm, hts, hprev, Outcome.processNameOf]
  · intro pn2
    rfl

/-- Witness for `claim_C9` at the repeated line after the October record:
the event's process name is `Dropbox`, not the marker text. -/
theorem claim_C9_witness :
    exStBefore.previous_structure = some exPrevStruct ∧
    MONTH_DICT (toLowerBytes exRepStruct.month) = some 11 ∧
    GetTimestamp exRepStruct.day 11
      (rolledYear (resolveYearUse exEnv exStBefore.year_use) exStBefore.last_month 11)
      exRepStruct.time ≠ 0 ∧
    (Outcome.processNameOf (ParseLogLine exEnv exStBefore exRepStruct .repeated).outcome
       = some (pyStrip exPrevStruct.process_name) ∧
     ∀ pn2, ParseLogLine exEnv exStBefore { exRepStruct with process_name := pn2 } .repeated =
            ParseLogLine exEnv exStBefore exRepStruct .repeated) :=
  ⟨by decide, by decide, by decide,
   claim_C9 exEnv exStBefore exRepStruct exPrevStruct 11 (by decide) (by decide)
     (by decide)⟩

/-- Claim C10.  A line whose components compose to exactly the epoch
instant (timestamp value 0) is treated like a composition failure: no
event is emitted and the bookkeeping follows the failure path
(`previous_structure` unchanged, `_last_month` only initialized). -/
theorem claim_C10 (env : Env) (st : ParserState) (s : LogLineStructure)
    (key : LineKey) (m : Nat)
    (hm : MONTH_DICT (toLowerBytes s.month) = some m)
    (hepoch : FromTimeParts
      (rolledYear (resolveYearUse env st.year_use) st.last_month m) m s.day
      s.time.1 s.time.2.1 s.time.2.2 = some 0) :
    (ParseLogLine env st s key).outcome = .skipped ∧
    (ParseLogLine env st s key).state.previous_structure = st.previous_structure ∧
    (ParseLogLine env st s key).state.last_month = some (st.last_month.getD m) := by
  have hts : GetTimestamp s.day m
      (rolledYear (resolveYearUse env st.year_use) st.last_month m) s.time = 0 := by
    unfold GetTimestamp; rw [hepoch]
  simp [ParseLogLine, hm, hts]

/-- Witness for `claim_C10` at the calendar-valid line
1970-01-01 00:00:00, which composes to the timestamp 0. -/
theorem claim_C10_witness :
    MONTH_DICT (toLowerBytes exEpochStruct.month) = some 1 ∧
    FromTimeParts
      (rolledYear (resolveYearUse exEnv exEpochState.year_use) exEpochState.last_month 1) 1
      exEpochStruct.day exEpochStruct.time.1 exEpochStruct.time.2.1 exEpochStruct.time.2.2
      = some 0 ∧
    ((ParseLogLine exEnv exEpochState exEpochStruct .logline).outcome = .skipped ∧
     (ParseLogLine exEnv exEpochState exEpochStruct .logline).state.previous_structure
       = exEpochState.previous_structure ∧
     (ParseLogLine exEnv exEpochState exEpochStruct .logline).state.last_month
       = some (exEpochState.last_month.getD 1)) :=
  ⟨by decide, by decide,
   claim_C10 exEnv exEpochState exEpochStruct .logline 1 (by decide) (by decide)⟩
